import Mathlib

/-!
Shallow embedding of the nafa-audit-sync Cloudflare Worker
(src/src/index.js): a webhook handler that, on a Monday.com file-upload
notification, fetches item metadata, downloads the newest attachment,
uploads it to Close CRM, mirrors it to R2, updates a Close custom field
and creates a Close note.

JavaScript values that the handler inspects for truthiness are modelled
by the type Prim (strings, integer numbers, booleans, null, undefined).
Outbound network interactions are modelled by an oracle (World): each
outbound call either throws (a rejected fetch or a parse error, which
propagates unless the source wraps it in try/catch) or yields a decoded
response. The handler produces a response together with a trace of
events: outbound calls and error-log lines.
-/

namespace NafaAuditSync

/-- Model of a JavaScript primitive value as seen by the handler. -/
inductive Prim where
  | str (s : String)
  | num (n : Int)
  | bool (b : Bool)
  | null
  | undefined
deriving DecidableEq

/-- JavaScript truthiness of a primitive value. -/
def Prim.truthy : Prim → Bool
  | .str s => !s.isEmpty
  | .num n => n != 0
  | .bool b => b
  | .null => false
  | .undefined => false

/-- JavaScript String(v) conversion, as used in the GraphQL variables. -/
def Prim.toJsString : Prim → String
  | .str s => s
  | .num n => toString n
  | .bool true => "true"
  | .bool false => "false"
  | .null => "null"
  | .undefined => "undefined"

/-- Reading an optional object property: a missing field is undefined. -/
def optPrim (o : Option Prim) : Prim := o.getD Prim.undefined

/-- The JavaScript expression a or-else b on primitives. -/
def jsOr (a b : Prim) : Prim := if a.truthy then a else b

/-- Strict equality of a primitive against a string literal. -/
def primStrictEqStr (p : Prim) (s : String) : Bool :=
  match p with
  | .str t => t == s
  | _ => false

/-- Truthiness of an optional string property. -/
def optStrTruthy : Option String → Bool
  | none => false
  | some s => !s.isEmpty

/-- The literal serialization of an empty value object. -/
def emptyObjLit : String := "\x7b\x7d"

/-- The literal serialization of an empty files array value. -/
def emptyFilesLit : String := "\x7b\x22files\x22:[]\x7d"

/-- Worker environment bindings used by the handler. -/
structure Env where
  nafaFileColumnId : String
  closeLeadIdColumnId : String
  closeNafaUrlFieldId : String
  r2PublicUrl : String
deriving DecidableEq

/-- The event object of a Monday webhook notification body. -/
structure EventObj where
  columnId : Option Prim
  value : Option Prim
  pulseId : Option Prim
  itemId : Option Prim
deriving DecidableEq

/-- Nested input-field mappings of the payload form of a notification. -/
structure FieldsObj where
  itemId : Option Prim
  pulseId : Option Prim
deriving DecidableEq

/-- The payload object form of a notification body. -/
structure PayloadObj where
  inputFields : Option FieldsObj
  inboundFieldValues : Option FieldsObj
  itemId : Option Prim
deriving DecidableEq

/-- A decoded POST body, with the fields the handler reads. -/
structure Body where
  challenge : Option Prim
  event : Option EventObj
  payload : Option PayloadObj
  itemId : Option Prim
  pulseId : Option Prim
deriving DecidableEq

/-- File contents, abstracted. -/
abbrev Bytes := Nat

/-- A file asset attached to a Monday item. -/
structure Asset where
  id : String
  name : String
  public_url : Option String
  created_at : Nat
deriving DecidableEq

/-- A column value object of the Monday metadata response. -/
structure ColumnValue where
  id : String
  text : Option String
  display_value : Option String
deriving DecidableEq

/-- An item object of the Monday metadata response. -/
structure MondayItem where
  name : String
  column_values : List ColumnValue
  assets : List Asset
deriving DecidableEq

/-- The decoded Monday GraphQL response. The errors flag models the
presence of an errors field in the response. -/
structure MondayResponse where
  errors : Bool
  items : List MondayItem
deriving DecidableEq

/-- Parsed item data produced by the metadata fetcher. -/
structure ItemData where
  name : String
  closeLeadId : Option String
  assets : List Asset
deriving DecidableEq

/-- The decoded Close file-upload init response. hasFields models the
presence of the backend form-field object. -/
structure InitData where
  uploadUrl : Option String
  hasFields : Bool
  downloadUrl : Option String
deriving DecidableEq

/-- Outcome of one outbound network interaction: either the promise
chain throws, or it yields a decoded value. -/
inductive NetRes (α : Type) where
  | thrown
  | ok (a : α)
deriving DecidableEq

/-- An outbound call made by the handler, with its arguments. -/
inductive Call where
  | monday (itemIdStr : String)
  | download (url : String)
  | closeInit (filename contentType : String)
  | s3 (url : String)
  | r2Put (key contentType : String) (fd : Bytes)
  | leadUpdate (leadId fieldKey url : String)
  | noteCreate (leadId attachmentUrl filename contentType : String)
deriving DecidableEq

/-- A trace event: an outbound call or an error-log line. -/
inductive Ev where
  | call (c : Call)
  | err (msg : String)
deriving DecidableEq

/-- The outbound calls of a trace, without the log lines. -/
def evCalls (t : List Ev) : List Call :=
  t.filterMap (fun e => match e with | .call c => some c | .err _ => none)

/-- Oracle fixing every outbound interaction outcome of one invocation. -/
structure World where
  mondayRes : NetRes MondayResponse
  download : String → NetRes (Option Bytes)
  closeInit : String → NetRes (Option InitData)
  s3 : String → NetRes Nat
  r2 : String → NetRes Unit
  leadUpdate : String → NetRes Bool
  note : String → NetRes Bool

/-- Splitting a character list at every occurrence of a separator,
matching the JavaScript String split method on a one-character
separator (an empty input yields one empty piece). -/
def splitOnChar (sep : Char) : List Char → List (List Char)
  | [] => [[]]
  | x :: xs =>
    match splitOnChar sep xs with
    | [] => if x == sep then [[], []] else [[x]]
    | piece :: rest =>
      if x == sep then [] :: piece :: rest else (x :: piece) :: rest

/-- ASCII lowercasing of one character, the fragment of the JavaScript
toLowerCase method relevant to the table keys. -/
def asciiLower (c : Char) : Char :=
  if 65 ≤ c.toNat && c.toNat ≤ 90 then Char.ofNat (c.toNat + 32) else c

/-- Lowercasing of a string, ASCII fragment of toLowerCase. -/
def lowerString (s : String) : String := String.mk (s.toList.map asciiLower)

/-- Characters removed by the JavaScript trim method (the common ones:
space, tab, and line separators). -/
def isJsSpace (c : Char) : Bool :=
  c.toNat == 32 || c.toNat == 9 || c.toNat == 10 ||
  c.toNat == 11 || c.toNat == 12 || c.toNat == 13

/-- The JavaScript trim method: strips leading and trailing whitespace. -/
def jsTrim (s : String) : String :=
  String.mk (((s.toList.dropWhile isJsSpace).reverse.dropWhile isJsSpace).reverse)

/-- The static suffix-to-MIME table of getMimeType. -/
def mimeTypes : List (String × String) :=
  [("pdf", "application/pdf"),
   ("png", "image/png"),
   ("jpg", "image/jpeg"),
   ("jpeg", "image/jpeg"),
   ("gif", "image/gif"),
   ("doc", "application/msword"),
   ("docx", "application/vnd.openxmlformats-officedocument.wordprocessingml.document"),
   ("xls", "application/vnd.ms-excel"),
   ("xlsx", "application/vnd.openxmlformats-officedocument.spreadsheetml.sheet"),
   ("csv", "text/csv"),
   ("txt", "text/plain"),
   ("html", "text/html"),
   ("zip", "application/zip")]

/-- getMimeType: last dot-separated segment, lowercased, looked up in
the static table, defaulting to the generic binary type. -/
def getMimeType (filename : String) : String :=
  match (splitOnChar (Char.ofNat 46) filename.toList).getLast? with
  | none => "application/octet-stream"
  | some e =>
    (mimeTypes.lookup (lowerString (String.mk e))).getD "application/octet-stream"

/-- Characters left unescaped by encodeURIComponent. -/
def isUnreserved (c : Char) : Bool :=
  (65 ≤ c.toNat && c.toNat ≤ 90) ||
  (97 ≤ c.toNat && c.toNat ≤ 122) ||
  (48 ≤ c.toNat && c.toNat ≤ 57) ||
  c.toNat == 45 || c.toNat == 95 || c.toNat == 46 || c.toNat == 33 ||
  c.toNat == 126 || c.toNat == 42 || c.toNat == 39 || c.toNat == 40 ||
  c.toNat == 41

/-- An uppercase hexadecimal digit. -/
def hexDigit (n : Nat) : Char :=
  if n < 10 then Char.ofNat (48 + n) else Char.ofNat (55 + n)

/-- The UTF-8 encoding of a character, as byte values. -/
def utf8Bytes (c : Char) : List Nat :=
  let n := c.toNat
  if n < 128 then [n]
  else if n < 2048 then [192 + n / 64, 128 + n % 64]
  else if n < 65536 then [224 + n / 4096, 128 + (n / 64) % 64, 128 + n % 64]
  else [240 + n / 262144, 128 + (n / 4096) % 64, 128 + (n / 64) % 64, 128 + n % 64]

/-- A percent-escaped byte. -/
def pctByte (n : Nat) : List Char :=
  [Char.ofNat 37, hexDigit (n / 16), hexDigit (n % 16)]

/-- The ECMAScript encodeURIComponent function. -/
def encodeURIComponent (s : String) : String :=
  String.mk ((s.toList.map (fun c =>
    if isUnreserved c then [c]
    else ((utf8Bytes c).map pctByte).flatten)).flatten)

/-- Insertion step of the descending sort on creation timestamps,
matching the comparator that subtracts dates. -/
def insertByCreatedDesc (a : Asset) : List Asset → List Asset
  | [] => [a]
  | b :: rest =>
    if b.created_at < a.created_at then a :: b :: rest
    else b :: insertByCreatedDesc a rest

/-- Stable sort of assets by created_at, most recent first. -/
def sortByCreatedDesc : List Asset → List Asset
  | [] => []
  | a :: rest => insertByCreatedDesc a (sortByCreatedDesc rest)

/-- getMondayItemData: one metadata query; null on reported errors or a
missing item; otherwise the item name, the trimmed lead id from the
configured column, and at most the single most recent asset. -/
def getMondayItemData (w : World) (env : Env) (itemId : Prim) :
    NetRes (Option ItemData) × List Ev :=
  let qcall : Ev := .call (.monday itemId.toJsString)
  match w.mondayRes with
  | .thrown => (.thrown, [qcall])
  | .ok data =>
    if data.errors then (.ok none, [qcall, .err "Monday API errors"])
    else
      match data.items.head? with
      | none => (.ok none, [qcall])
      | some item =>
        let col := item.column_values.find? (fun c => c.id == env.closeLeadIdColumnId)
        let t := col.bind (fun c => c.text)
        let d := col.bind (fun c => c.display_value)
        let rawLeadId : Option String :=
          if optStrTruthy t then t else if optStrTruthy d then d else none
        let leadId : Option String :=
          match rawLeadId with
          | none => none
          | some s => if (jsTrim s).isEmpty then none else some (jsTrim s)
        let allAssets := sortByCreatedDesc item.assets
        let latestAsset : List Asset :=
          match allAssets with
          | [] => []
          | a :: _ => [a]
        (.ok (some { name := item.name, closeLeadId := leadId, assets := latestAsset }),
         [qcall])

/-- downloadMondayFile: absent or empty URL short-circuits with no call;
a thrown fetch or a non-2xx response yield null (caught locally). -/
def downloadMondayFile (w : World) (publicUrl : Option String) :
    Option Bytes × List Ev :=
  match publicUrl with
  | none => (none, [])
  | some u =>
    if u.isEmpty then (none, [])
    else
      match w.download u with
      | .thrown => (none, [.call (.download u), .err "File download error"])
      | .ok none => (none, [.call (.download u), .err "Monday file download failed"])
      | .ok (some b) => (some b, [.call (.download u)])

/-- uploadFileToClose: init call, field checks, then the S3 deposit;
only statuses 201 and 204 succeed. A thrown fetch propagates because
the source has no try/catch here. -/
def uploadFileToClose (w : World) (filename contentType : String) (fd : Bytes) :
    NetRes (Option String) × List Ev :=
  let initCall : Ev := .call (.closeInit filename contentType)
  match w.closeInit filename with
  | .thrown => (.thrown, [initCall])
  | .ok none => (.ok none, [initCall, .err "Close file init failed"])
  | .ok (some initData) =>
    if !optStrTruthy initData.uploadUrl || !initData.hasFields ||
        !optStrTruthy initData.downloadUrl then
      (.ok none, [initCall, .err "Close file init response missing required fields"])
    else
      let u := initData.uploadUrl.getD ""
      let d := initData.downloadUrl.getD ""
      match w.s3 u with
      | .thrown => (.thrown, [initCall, .call (.s3 u)])
      | .ok st =>
        if st != 201 && st != 204 then
          (.ok none, [initCall, .call (.s3 u), .err "S3 upload failed"])
        else
          (.ok (some d), [initCall, .call (.s3 u)])
  -- fd is deposited in the multipart form; its bytes do not influence
  -- the control flow modelled here

/-- createCloseNote: one POST; a non-OK response yields false. A thrown
fetch propagates because the source has no try/catch here. -/
def createCloseNote (w : World) (leadId filename fileUrl contentType itemName : String)
    (itemId : Prim) : NetRes Bool × List Ev :=
  let c : Ev := .call (.noteCreate leadId fileUrl filename contentType)
  match w.note leadId with
  | .thrown => (.thrown, [c])
  | .ok true => (.ok true, [c])
  | .ok false => (.ok false, [c, .err "Close note creation failed"])

/-- updateCloseLeadField: one PUT setting the interpolated custom-field
key; failures and thrown fetches are caught locally and yield false. -/
def updateCloseLeadField (w : World) (env : Env) (leadId r2Url : String) :
    Bool × List Ev :=
  let fieldKey := "custom." ++ env.closeNafaUrlFieldId
  let c : Ev := .call (.leadUpdate leadId fieldKey r2Url)
  match w.leadUpdate leadId with
  | .thrown => (false, [c, .err "Close lead update error"])
  | .ok true => (true, [c])
  | .ok false => (false, [c, .err "Close lead field update failed"])

/-- uploadFileToR2: put under the raw key itemId/filename; on success
return the configured base joined with the percent-encoded key; a
thrown put is caught locally and yields null. -/
def uploadFileToR2 (w : World) (env : Env) (filename contentType : String)
    (fd : Bytes) (itemId : Prim) : Option String × List Ev :=
  let r2Key := itemId.toJsString ++ "/" ++ filename
  let c : Ev := .call (.r2Put r2Key contentType fd)
  match w.r2 r2Key with
  | .thrown => (none, [c, .err "R2 upload error"])
  | .ok _ =>
    let encodedKey := itemId.toJsString ++ "/" ++ encodeURIComponent filename
    (some (env.r2PublicUrl ++ "/" ++ encodedKey), [c])

/-- A response: status plus either a plain-text body or the challenge
echo JSON object. -/
inductive RBody where
  | text (s : String)
  | challengeEcho (p : Prim)
deriving DecidableEq

/-- An HTTP response of the handler. -/
structure Resp where
  status : Nat
  rbody : RBody
deriving DecidableEq

/-- Item-id extraction from the decoded body (the branches after the
challenge check): either an early response or the extracted value. -/
def extractItemId (env : Env) (body : Body) : Resp ⊕ Prim :=
  match body.event with
  | some ev =>
    if (optPrim ev.columnId).truthy &&
        !primStrictEqStr (optPrim ev.columnId) env.nafaFileColumnId then
      .inl { status := 200, rbody := .text "Ignoring non-NAFA column change" }
    else if (optPrim ev.value).truthy &&
        (primStrictEqStr (optPrim ev.value) emptyObjLit ||
         primStrictEqStr (optPrim ev.value) emptyFilesLit) then
      .inl { status := 200, rbody := .text "File was removed, skipping" }
    else
      .inr (jsOr (optPrim ev.pulseId) (optPrim ev.itemId))
  | none =>
    match body.payload with
    | some p =>
      let fields : FieldsObj :=
        match p.inputFields with
        | some f => f
        | none =>
          match p.inboundFieldValues with
          | some f => f
          | none => { itemId := none, pulseId := none }
      let id0 := jsOr (optPrim fields.itemId) (optPrim fields.pulseId)
      let id1 := if !id0.truthy && (optPrim p.itemId).truthy then optPrim p.itemId else id0
      .inr id1
    | none => .inr (jsOr (optPrim body.itemId) (optPrim body.pulseId))

/-- Per-asset processing: download, CRM upload, mirror upload, field
update, note creation, with the skip rules of the source loop body. -/
def processAsset (w : World) (env : Env) (itemId : Prim)
    (closeLeadId itemName : String) (asset : Asset) : NetRes Unit × List Ev :=
  let (fileData, t1) := downloadMondayFile w asset.public_url
  match fileData with
  | none => (.ok (), t1 ++ [.err ("Failed to download file " ++ asset.name ++ " from Monday")])
  | some fd =>
    let contentType := getMimeType asset.name
    let (closeRes, t2) := uploadFileToClose w asset.name contentType fd
    match closeRes with
    | .thrown => (.thrown, t1 ++ t2)
    | .ok none =>
      (.ok (), t1 ++ t2 ++ [.err ("Failed to upload file " ++ asset.name ++ " to Close")])
    | .ok (some closeFileUrl) =>
      let (r2Url, t3) := uploadFileToR2 w env asset.name contentType fd itemId
      let t4 : List Ev :=
        match r2Url with
        | some u => (updateCloseLeadField w env closeLeadId u).2
        | none => [.err "Failed to upload file to R2, skipping custom field update"]
      let (noteRes, t5) :=
        createCloseNote w closeLeadId asset.name closeFileUrl contentType itemName itemId
      match noteRes with
      | .thrown => (.thrown, t1 ++ t2 ++ t3 ++ t4 ++ t5)
      | .ok true => (.ok (), t1 ++ t2 ++ t3 ++ t4 ++ t5)
      | .ok false =>
        (.ok (), t1 ++ t2 ++ t3 ++ t4 ++ t5 ++
          [.err ("Failed to create note on Close lead " ++ closeLeadId)])

/-- Sequential iteration of the asset loop; a thrown step aborts it. -/
def processAssets (w : World) (env : Env) (itemId : Prim)
    (closeLeadId itemName : String) : List Asset → NetRes Unit × List Ev
  | [] => (.ok (), [])
  | a :: rest =>
    let (r, t) := processAsset w env itemId closeLeadId itemName a
    match r with
    | .thrown => (.thrown, t)
    | .ok _ =>
      let (r2, t2) := processAssets w env itemId closeLeadId itemName rest
      (r2, t ++ t2)

/-- The fetch handler on a decoded POST body: challenge echo, item-id
extraction, metadata fetch, guards, asset loop, with the top-level
catch turning a propagated throw into a 500. -/
def fetch (w : World) (env : Env) (body : Body) : Resp × List Ev :=
  if (optPrim body.challenge).truthy then
    ({ status := 200, rbody := .challengeEcho (optPrim body.challenge) }, [])
  else
    match extractItemId env body with
    | .inl resp => (resp, [])
    | .inr itemId =>
      if !itemId.truthy then
        ({ status := 200, rbody := .text "No item ID found in payload" },
         [.err "Could not extract item ID from payload"])
      else
        let (res, t) := getMondayItemData w env itemId
        match res with
        | .thrown =>
          ({ status := 500, rbody := .text "Internal error" }, t ++ [.err "Worker error"])
        | .ok none =>
          ({ status := 500, rbody := .text "Failed to fetch item data" },
           t ++ [.err ("Failed to fetch item data for item " ++ itemId.toJsString)])
        | .ok (some itemData) =>
          match itemData.closeLeadId with
          | none =>
            ({ status := 200, rbody := .text "No Close Lead ID on item" },
             t ++ [.err "No Close Lead ID found for item"])
          | some closeLeadId =>
            if itemData.assets.isEmpty then
              ({ status := 200, rbody := .text "No file assets found" },
               t ++ [.err "No file assets found for item"])
            else
              let (r, t2) :=
                processAssets w env itemId closeLeadId itemData.name itemData.assets
              match r with
              | .thrown =>
                ({ status := 500, rbody := .text "Internal error" },
                 t ++ t2 ++ [.err "Worker error"])
              | .ok _ => ({ status := 200, rbody := .text "OK" }, t ++ t2)

/-! Concrete fixtures used by witnesses and counterexamples. -/

/-- A concrete environment configuration. -/
def cEnv : Env :=
  { nafaFileColumnId := "colF",
    closeLeadIdColumnId := "colL",
    closeNafaUrlFieldId := "fld",
    r2PublicUrl := "https://pub.example" }

/-- A world whose metadata query reports errors and whose other calls
yield non-throwing failures. -/
def quietWorld : World :=
  { mondayRes := .ok ({ errors := true, items := [] }),
    download := fun _ => .ok none,
    closeInit := fun _ => .ok none,
    s3 := fun _ => .ok 0,
    r2 := fun _ => .ok (),
    leadUpdate := fun _ => .ok false,
    note := fun _ => .ok false }

/-- An asset with the earliest creation timestamp. -/
def asset1 : Asset :=
  { id := "a1", name := "x.pdf", public_url := some "https://m/a1", created_at := 10 }

/-- An asset with the middle creation timestamp. -/
def asset2 : Asset :=
  { id := "a2", name := "y.pdf", public_url := some "https://m/a2", created_at := 20 }

/-- The asset with the most recent creation timestamp. -/
def asset3 : Asset :=
  { id := "a3", name := "a b.pdf", public_url := some "https://m/a3", created_at := 30 }

/-- A Monday item with a lead-id column and three assets, listed out of
timestamp order. -/
def item0 : MondayItem :=
  { name := "Lead Name",
    column_values := [{ id := "colL", text := some " lead_9 ", display_value := none }],
    assets := [asset1, asset3, asset2] }

/-- A successful metadata response holding item0. -/
def respHappy : MondayResponse := { errors := false, items := [item0] }

/-- A world in which every outbound interaction succeeds. -/
def wHappy : World :=
  { mondayRes := .ok respHappy,
    download := fun _ => .ok (some 7),
    closeInit := fun _ =>
      .ok (some ({ uploadUrl := some "https://s3/u",
                   hasFields := true,
                   downloadUrl := some "https://close/dl" } : InitData)),
    s3 := fun _ => .ok 201,
    r2 := fun _ => .ok (),
    leadUpdate := fun _ => .ok true,
    note := fun _ => .ok true }

/-- wHappy, except that the Close init fetch rejects (a network error). -/
def wCloseInitThrow : World := { wHappy with closeInit := fun _ => .thrown }

/-- wHappy, except that the Monday file download returns a bad status. -/
def wDownloadFail : World := { wHappy with download := fun _ => .ok none }

/-- wHappy, except that the R2 put throws. -/
def wR2Throw : World := { wHappy with r2 := fun _ => .thrown }

/-- An event-form body on the configured column with pulseId 123. -/
def bodyEv : Body :=
  { challenge := none,
    event := some { columnId := some (.str "colF"), value := some (.str "x"),
                    pulseId := some (.num 123), itemId := none },
    payload := none, itemId := none, pulseId := none }

/-- An event object that lacks a columnId field. -/
def evNoCol : EventObj :=
  { columnId := none, value := some (.str "x"),
    pulseId := some (.num 7), itemId := none }

/-- An event-form body that lacks a columnId field. -/
def bodyEvNoCol : Body :=
  { challenge := none, event := some evNoCol,
    payload := none, itemId := none, pulseId := none }

/-- An event object whose value is the empty-object literal. -/
def evRemoved : EventObj :=
  { columnId := some (.str "colF"), value := some (.str emptyObjLit),
    pulseId := some (.num 9), itemId := none }

/-- An event-form body whose value is the empty-object literal. -/
def bodyEvRemoved : Body :=
  { challenge := none, event := some evRemoved,
    payload := none, itemId := none, pulseId := none }

/-- A bare-field body with a string item id. -/
def bodyBare : Body :=
  { challenge := none, event := none, payload := none,
    itemId := some (.str "5"), pulseId := none }

/-- A bare-field body from which the extracted id is numeric zero. -/
def bodyZeroId : Body :=
  { challenge := none, event := none, payload := none,
    itemId := none, pulseId := some (.num 0) }

/-- A body whose challenge field holds the empty string, a falsy value. -/
def challengeEmptyBody : Body :=
  { challenge := some (.str ""), event := none, payload := none,
    itemId := none, pulseId := none }

/-- A body with a truthy challenge token and unrelated fields present. -/
def challengeFullBody : Body :=
  { challenge := some (.str "tok123"),
    event := some { columnId := some (.str "other"), value := none,
                    pulseId := some (.num 4), itemId := none },
    payload := none, itemId := some (.str "z"), pulseId := none }

/-- Recognizer for custom-field update calls. -/
def isLeadUpdate : Call → Bool
  | .leadUpdate _ _ _ => true
  | _ => false

/-! Helper lemmas. -/

/-- A successful strict string comparison pins the primitive. -/
theorem primStrictEqStr_eq_true {p : Prim} {s : String}
    (h : primStrictEqStr p s = true) : p = .str s := by
  cases p <;> simp [primStrictEqStr] at h ⊢
  exact h

/-- The head of the descending sort of a nonempty list is an element
whose timestamp dominates every element of the list. -/
theorem sortByCreatedDesc_spec :
    ∀ l : List Asset, l ≠ [] →
      ∃ a t, sortByCreatedDesc l = a :: t ∧ a ∈ l ∧
        ∀ b ∈ l, b.created_at ≤ a.created_at
  | [], h => absurd rfl h
  | [x], _ => by
    refine ⟨x, [], by simp [sortByCreatedDesc, insertByCreatedDesc], by simp, ?_⟩
    intro b hb
    simp at hb
    simp [hb]
  | x :: y :: ys, _ => by
    obtain ⟨a, t, hs, ha, hmax⟩ := sortByCreatedDesc_spec (y :: ys) (by simp)
    have hstep : sortByCreatedDesc (x :: y :: ys) = insertByCreatedDesc x (a :: t) := by
      simp [sortByCreatedDesc, ← hs]
    by_cases hlt : a.created_at < x.created_at
    · refine ⟨x, a :: t, ?_, by simp, ?_⟩
      · rw [hstep]; simp [insertByCreatedDesc, hlt]
      · intro b hb
        rcases List.mem_cons.mp hb with hbx | hbr
        · simp [hbx]
        · exact Nat.le_trans (hmax b hbr) (Nat.le_of_lt hlt)
    · refine ⟨a, insertByCreatedDesc x t, ?_, List.mem_cons_of_mem _ ha, ?_⟩
      · rw [hstep]; simp [insertByCreatedDesc, hlt]
      · intro b hb
        rcases List.mem_cons.mp hb with hbx | hbr
        · subst hbx; exact Nat.le_of_not_lt hlt
        · exact hmax b hbr

/-- The metadata fetcher always issues the query call first. -/
theorem getMondayItemData_trace (w : World) (env : Env) (p : Prim) :
    ∃ rest, (getMondayItemData w env p).2 =
      .call (.monday p.toJsString) :: rest := by
  unfold getMondayItemData
  rcases hw : w.mondayRes with _ | data
  · exact ⟨[], rfl⟩
  · by_cases he : data.errors
    · simp [he]
    · rcases hh : data.items.head? with _ | item
      · simp [he, hh]
      · simp [he, hh]

/-- The CRM uploader cannot propagate a throw when neither of its two
fetches rejects. -/
theorem uploadFileToClose_not_thrown (w : World) (f ct : String) (fd : Bytes)
    (hci : w.closeInit f ≠ .thrown) (hs3 : ∀ s, w.s3 s ≠ .thrown) :
    (uploadFileToClose w f ct fd).1 ≠ .thrown := by
  unfold uploadFileToClose
  rcases hc : w.closeInit f with _ | oi
  · exact absurd hc hci
  · rcases oi with _ | initData
    · simp
    · dsimp only
      split
      · simp
      · rcases hs : w.s3 (initData.uploadUrl.getD "") with _ | st
        · exact absurd hs (hs3 _)
        · dsimp only
          split <;> simp

/-- The note creator cannot propagate a throw when its fetch does not
reject. -/
theorem createCloseNote_not_thrown (w : World) (leadId f u ct nm : String)
    (p : Prim) (hn : w.note leadId ≠ .thrown) :
    (createCloseNote w leadId f u ct nm p).1 ≠ .thrown := by
  unfold createCloseNote
  rcases hc : w.note leadId with _ | b
  · exact absurd hc hn
  · cases b <;> simp

/-- Per-asset processing cannot propagate a throw when the CRM upload
fetches and the note fetch do not reject. -/
theorem processAsset_not_thrown (w : World) (env : Env) (itemId : Prim)
    (leadId nm : String) (a : Asset)
    (hci : ∀ s, w.closeInit s ≠ .thrown) (hs3 : ∀ s, w.s3 s ≠ .thrown)
    (hn : ∀ s, w.note s ≠ .thrown) :
    (processAsset w env itemId leadId nm a).1 ≠ .thrown := by
  unfold processAsset
  rcases hdl : downloadMondayFile w a.public_url with ⟨fd, t1⟩
  rcases fd with _ | fdata
  · simp
  · dsimp only
    rcases hup : uploadFileToClose w a.name (getMimeType a.name) fdata with ⟨r, t2⟩
    have hr : r ≠ .thrown := by
      have := uploadFileToClose_not_thrown w a.name (getMimeType a.name) fdata
        (hci a.name) hs3
      rw [hup] at this
      exact this
    rcases r with _ | ro
    · exact absurd rfl hr
    · rcases ro with _ | cfu
      · simp
      · dsimp only
        rcases hnote : createCloseNote w leadId a.name cfu (getMimeType a.name) nm itemId
          with ⟨nr, t5⟩
        have hnr : nr ≠ .thrown := by
          have := createCloseNote_not_thrown w leadId a.name cfu (getMimeType a.name)
            nm itemId (hn leadId)
          rw [hnote] at this
          exact this
        rcases nr with _ | b
        · exact absurd rfl hnr
        · cases b <;> simp

/-- Every call of the downloader trace is a download call. -/
theorem downloadMondayFile_calls (w : World) (u : Option String) :
    ∀ c ∈ evCalls (downloadMondayFile w u).2, ∃ s, c = .download s := by
  unfold downloadMondayFile
  rcases u with _ | url
  · simp [evCalls]
  · dsimp only
    split
    · simp [evCalls]
    · rcases w.download url with _ | ob
      · simp [evCalls]
      · rcases ob with _ | b <;> simp [evCalls]

/-- Every call of the CRM uploader trace is an init or deposit call. -/
theorem uploadFileToClose_calls (w : World) (f ct : String) (fd : Bytes) :
    ∀ c ∈ evCalls (uploadFileToClose w f ct fd).2,
      (∃ x y, c = .closeInit x y) ∨ (∃ s, c = .s3 s) := by
  unfold uploadFileToClose
  rcases w.closeInit f with _ | oi
  · simp [evCalls]
  · rcases oi with _ | initData
    · simp [evCalls]
    · dsimp only
      split
      · simp [evCalls]
      · rcases w.s3 (initData.uploadUrl.getD "") with _ | st
        · simp [evCalls]
        · dsimp only
          split <;> simp [evCalls]

/-- Every call of the mirror uploader trace is an R2 put. -/
theorem uploadFileToR2_calls (w : World) (env : Env) (f ct : String)
    (fd : Bytes) (p : Prim) :
    ∀ c ∈ evCalls (uploadFileToR2 w env f ct fd p).2,
      ∃ k x y, c = .r2Put k x y := by
  unfold uploadFileToR2
  rcases hr : w.r2 (p.toJsString ++ "/" ++ f) with _ | u <;> simp [evCalls, hr]

/-! Claim theorems. -/

/-- C5 counterexample: a body whose challenge field holds the empty
string (a falsy value) is not echoed; the handler falls through to
normal processing and answers with the no-item-id body instead of the
challenge echo that the claim requires. -/
theorem c5_counterexample :
    challengeEmptyBody.challenge = some (Prim.str "") ∧
    (fetch quietWorld cEnv challengeEmptyBody).1 ≠
      { status := 200, rbody := .challengeEcho (Prim.str "") } ∧
    (fetch quietWorld cEnv challengeEmptyBody).1.rbody =
      .text "No item ID found in payload" := by
  refine ⟨rfl, by decide, by decide⟩

/-- C5 amended: for every POST body whose challenge field holds a
truthy value, the response is exactly the challenge-echo object with
status 200, regardless of any other fields, and no outbound call and
no further processing occurs; a falsy challenge value is ignored. -/
theorem c5_truthy_challenge_echo (w : World) (env : Env) (body : Body)
    (h : (optPrim body.challenge).truthy = true) :
    fetch w env body =
      ({ status := 200, rbody := .challengeEcho (optPrim body.challenge) }, []) := by
  simp [fetch, h]

/-- C5 witness: a truthy challenge token is echoed even when event and
bare-id fields are also present, with an empty trace. -/
theorem c5_witness :
    (optPrim challengeFullBody.challenge).truthy = true ∧
    fetch wHappy cEnv challengeFullBody =
      ({ status := 200, rbody := .challengeEcho (Prim.str "tok123") }, []) :=
  ⟨by decide, c5_truthy_challenge_echo wHappy cEnv challengeFullBody (by decide)⟩

/-- C6: for every event payload whose value strictly equals one of the
two removed-file literals, the handler answers 200 and the trace holds
zero outbound calls. -/
theorem c6_removed_value_ignored (w : World) (env : Env) (body : Body) (ev : EventObj)
    (hev : body.event = some ev)
    (hval : primStrictEqStr (optPrim ev.value) emptyObjLit = true ∨
            primStrictEqStr (optPrim ev.value) emptyFilesLit = true) :
    (fetch w env body).1.status = 200 ∧ evCalls (fetch w env body).2 = [] := by
  have htr : (optPrim ev.value).truthy = true := by
    rcases hval with h | h <;> rw [primStrictEqStr_eq_true h] <;> decide
  have hguard : ((optPrim ev.value).truthy &&
      (primStrictEqStr (optPrim ev.value) emptyObjLit ||
       primStrictEqStr (optPrim ev.value) emptyFilesLit)) = true := by
    rcases hval with h | h <;> simp [htr, h]
  unfold fetch
  by_cases hch : (optPrim body.challenge).truthy = true
  · simp [hch, evCalls]
  · simp only [hch]
    unfold extractItemId
    rw [hev]
    dsimp only
    by_cases hcol : ((optPrim ev.columnId).truthy &&
        !primStrictEqStr (optPrim ev.columnId) env.nafaFileColumnId) = true
    · simp [hcol, evCalls]
    · simp [hcol, hguard, evCalls]

/-- C6 witness: an event carrying the empty-object literal value on the
configured column yields 200 with no outbound calls, even in a world
where every call would succeed. -/
theorem c6_witness :
    bodyEvRemoved.event = some evRemoved ∧
    primStrictEqStr (optPrim evRemoved.value) emptyObjLit = true ∧
    (fetch wHappy cEnv bodyEvRemoved).1.status = 200 ∧
    evCalls (fetch wHappy cEnv bodyEvRemoved).2 = [] :=
  ⟨rfl, by decide,
   (c6_removed_value_ignored wHappy cEnv bodyEvRemoved evRemoved rfl (Or.inl (by decide))).1,
   (c6_removed_value_ignored wHappy cEnv bodyEvRemoved evRemoved rfl (Or.inl (by decide))).2⟩

/-- C8 counterexample: the filename pdf has no dot and hence no
extension, yet its derived content type is application/pdf rather than
the generic binary type the claim requires. -/
theorem c8_counterexample :
    (Char.ofNat 46) ∉ "pdf".toList ∧
    getMimeType "pdf" = "application/pdf" ∧
    getMimeType "pdf" ≠ "application/octet-stream" :=
  ⟨by decide, by decide, by decide⟩

/-- C8 amended: the content type is looked up case-insensitively from
the last dot-separated segment of the filename (for a dotless filename
that segment is the whole name, so a bare name equal to a known suffix
maps to that type); when the lowercased segment is not in the table the
result is the generic binary type. -/
theorem c8_mime_amended :
    getMimeType "report.PDF" = "application/pdf" ∧
    getMimeType "report.pdf" = "application/pdf" ∧
    getMimeType "Report.PdF" = "application/pdf" ∧
    getMimeType "archive.xyz" = "application/octet-stream" ∧
    getMimeType "README" = "application/octet-stream" ∧
    (∀ f e, (splitOnChar (Char.ofNat 46) f.toList).getLast? = some e →
      mimeTypes.lookup (lowerString (String.mk e)) = none →
      getMimeType f = "application/octet-stream") := by
  refine ⟨by decide, by decide, by decide, by decide, by decide, ?_⟩
  intro f e h1 h2
  unfold getMimeType
  rw [h1]
  dsimp only
  rw [h2]
  rfl

/-- C8 witness: an unknown suffix maps to the generic binary type. -/
theorem c8_witness :
    (splitOnChar (Char.ofNat 46) "data.bin".toList).getLast? = some "bin".toList ∧
    mimeTypes.lookup (lowerString (String.mk "bin".toList)) = none ∧
    getMimeType "data.bin" = "application/octet-stream" :=
  ⟨by decide, by decide,
    c8_mime_amended.2.2.2.2.2 "data.bin" "bin".toList (by decide) (by decide)⟩

/-- Two bodies with the same challenge field and the same extraction
result are handled identically. -/
theorem fetch_extract_congr (w : World) (env : Env) (b1 b2 : Body)
    (hc : b1.challenge = b2.challenge)
    (he : extractItemId env b1 = extractItemId env b2) :
    fetch w env b1 = fetch w env b2 := by
  unfold fetch
  rw [hc, he]

/-- C9: when the event lacks a columnId, the target-column filter is
skipped entirely: the handler behaves exactly as if the event named the
configured target column, and, provided the value is not a removed-file
literal and the extracted identifier is truthy, it proceeds to issue
the metadata query for that identifier. -/
theorem c9_missing_columnId_runs (w : World) (env : Env) (body : Body) (ev : EventObj)
    (hev : body.event = some ev)
    (hcol : ev.columnId = none)
    (hch : (optPrim body.challenge).truthy = false)
    (hval : ((optPrim ev.value).truthy &&
      (primStrictEqStr (optPrim ev.value) emptyObjLit ||
       primStrictEqStr (optPrim ev.value) emptyFilesLit)) = false)
    (hid : (jsOr (optPrim ev.pulseId) (optPrim ev.itemId)).truthy = true) :
    fetch w env body = fetch w env { body with event := some { ev with columnId := some (.str env.nafaFileColumnId) } } ∧
    (fetch w env body).2.head? =
      some (.call (.monday (jsOr (optPrim ev.pulseId) (optPrim ev.itemId)).toJsString)) := by
  have hextract : extractItemId env body =
      .inr (jsOr (optPrim ev.pulseId) (optPrim ev.itemId)) := by
    have h1 : ((optPrim ev.columnId).truthy &&
        !primStrictEqStr (optPrim ev.columnId) env.nafaFileColumnId) = false := by
      rw [hcol]
      rfl
    unfold extractItemId
    rw [hev]
    dsimp only
    rw [if_neg (by simp [h1]), if_neg (by simp [hval])]
  have hextract2 : extractItemId env
      { body with event := some { ev with columnId := some (.str env.nafaFileColumnId) } } =
      .inr (jsOr (optPrim ev.pulseId) (optPrim ev.itemId)) := by
    unfold extractItemId
    dsimp only
    have h1 : primStrictEqStr (optPrim (some (Prim.str env.nafaFileColumnId)))
        env.nafaFileColumnId = true := by
      simp [optPrim, primStrictEqStr]
    simp [h1, hval]
  refine ⟨fetch_extract_congr w env _ _ rfl (hextract.trans hextract2.symm), ?_⟩
  obtain ⟨rest, ht⟩ :=
    getMondayItemData_trace w env (jsOr (optPrim ev.pulseId) (optPrim ev.itemId))
  unfold fetch
  rw [hch]
  dsimp only
  rw [hextract]
  dsimp only
  rcases hg : getMondayItemData w env (jsOr (optPrim ev.pulseId) (optPrim ev.itemId))
    with ⟨res, t⟩
  have ht2 : t = .call (.monday (jsOr (optPrim ev.pulseId) (optPrim ev.itemId)).toJsString)
      :: rest := by
    rw [hg] at ht
    exact ht
  subst ht2
  rcases res with _ | od
  · simp [hid]
  · rcases od with _ | d
    · simp [hid]
    · dsimp only
      rcases hdd : d.closeLeadId with _ | lid
      · simp [hid, hdd]
      · by_cases hemp : d.assets.isEmpty = true
        · simp [hid, hdd, hemp]
        · rcases hps : processAssets w env (jsOr (optPrim ev.pulseId) (optPrim ev.itemId))
            lid d.name d.assets with ⟨r, t2⟩
          rcases r with _ | u <;> simp [hid, hdd, hemp, hps]

/-- C9 witness: an event body without a columnId, a benign value and
pulseId 7 is handled like one naming the target column, and its first
outbound call is the metadata query for 7. -/
theorem c9_witness :
    bodyEvNoCol.event = some evNoCol ∧ evNoCol.columnId = none ∧
    (fetch wHappy cEnv bodyEvNoCol).2.head? = some (.call (.monday "7")) :=
  ⟨rfl, rfl,
   (c9_missing_columnId_runs wHappy cEnv bodyEvNoCol evNoCol
      rfl rfl (by decide) (by decide) (by decide)).2⟩

/-- C7: the mirror object is put under the raw key itemId/filename
(first and only call of the writer), while the returned public URL
joins the configured base with the percent-encoded key; concretely,
item 123 with filename a b.pdf keys the store as 123/a b.pdf and its
URL filename segment encodes to a%20b.pdf. -/
theorem c7_r2_key_and_url (w : World) (env : Env) (filename ct : String)
    (fd : Bytes) (itemId : Prim) :
    (∃ rest, (uploadFileToR2 w env filename ct fd itemId).2 =
        .call (.r2Put (itemId.toJsString ++ "/" ++ filename) ct fd) :: rest) ∧
    (w.r2 (itemId.toJsString ++ "/" ++ filename) ≠ .thrown →
      (uploadFileToR2 w env filename ct fd itemId).1 =
        some (env.r2PublicUrl ++ "/" ++ (itemId.toJsString ++ "/" ++ encodeURIComponent filename))) ∧
    Prim.toJsString (.num 123) ++ "/" ++ "a b.pdf" = "123/a b.pdf" ∧
    encodeURIComponent "a b.pdf" = "a%20b.pdf" := by
  refine ⟨?_, ?_, by decide, by decide⟩
  · unfold uploadFileToR2
    rcases hr : w.r2 (itemId.toJsString ++ "/" ++ filename) with _ | u
    · exact ⟨[.err "R2 upload error"], by simp [hr]⟩
    · exact ⟨[], by simp [hr]⟩
  · intro h
    unfold uploadFileToR2
    rcases hr : w.r2 (itemId.toJsString ++ "/" ++ filename) with _ | u
    · exact absurd hr h
    · simp [hr]

/-- C7 witness: in the all-success world, the writer returns the base
URL joined with the encoded key for item 123 and filename a b.pdf. -/
theorem c7_witness :
    wHappy.r2 (Prim.toJsString (.num 123) ++ "/" ++ "a b.pdf") ≠ .thrown ∧
    (uploadFileToR2 wHappy cEnv "a b.pdf" "application/pdf" 7 (.num 123)).1 =
      some (cEnv.r2PublicUrl ++ "/" ++ (Prim.toJsString (.num 123) ++ "/" ++ encodeURIComponent "a b.pdf")) ∧
    (uploadFileToR2 wHappy cEnv "a b.pdf" "application/pdf" 7 (.num 123)).1 =
      some "https://pub.example/123/a%20b.pdf" :=
  ⟨by decide,
   (c7_r2_key_and_url wHappy cEnv "a b.pdf" "application/pdf" 7 (.num 123)).2.1 (by decide),
   by decide⟩

/-- C3: on a successful metadata response whose first item has assets
with pairwise distinct creation timestamps, the fetcher returns item
data whose asset list is empty when the item has no assets and is
otherwise exactly one asset that strictly dominates every other asset
of the item in creation timestamp. -/
theorem c3_latest_asset_only (w : World) (env : Env) (itemId : Prim)
    (data : MondayResponse) (item : MondayItem)
    (hres : w.mondayRes = .ok data)
    (herr : data.errors = false)
    (hitem : data.items.head? = some item)
    (hdist : ∀ b ∈ item.assets, ∀ c ∈ item.assets,
      b.created_at = c.created_at → b = c) :
    ∃ d, (getMondayItemData w env itemId).1 = .ok (some d) ∧
      (item.assets = [] → d.assets = []) ∧
      (item.assets ≠ [] → ∃ a, d.assets = [a] ∧ a ∈ item.assets ∧
        ∀ b ∈ item.assets, b = a ∨ b.created_at < a.created_at) := by
  unfold getMondayItemData
  rw [hres]
  dsimp only
  rw [if_neg (by simp [herr])]
  rw [hitem]
  dsimp only
  refine ⟨_, rfl, ?_, ?_⟩
  · intro hnil
    simp [hnil, sortByCreatedDesc]
  · intro hne
    obtain ⟨a, t, hs, ha, hmax⟩ := sortByCreatedDesc_spec item.assets hne
    refine ⟨a, by simp [hs], ha, ?_⟩
    intro b hb
    by_cases hba : b = a
    · exact Or.inl hba
    · refine Or.inr (Nat.lt_of_le_of_ne (hmax b hb) ?_)
      intro hEq
      exact hba (hdist b hb a ha hEq)

/-- C3 witness: the fixture item with timestamps 10, 30, 20 yields item
data holding exactly the timestamp-30 asset, and the general statement
instantiates to it. -/
theorem c3_witness :
    respHappy.errors = false ∧
    (∀ b ∈ item0.assets, ∀ c ∈ item0.assets, b.created_at = c.created_at → b = c) ∧
    (getMondayItemData wHappy cEnv (Prim.num 123)).1 =
      .ok (some { name := "Lead Name", closeLeadId := some "lead_9", assets := [asset3] }) ∧
    (∃ d, (getMondayItemData wHappy cEnv (Prim.num 123)).1 = .ok (some d) ∧
      (item0.assets = [] → d.assets = []) ∧
      (item0.assets ≠ [] → ∃ a, d.assets = [a] ∧ a ∈ item0.assets ∧
        ∀ b ∈ item0.assets, b = a ∨ b.created_at < a.created_at)) :=
  ⟨rfl, by decide, by decide,
   c3_latest_asset_only wHappy cEnv (Prim.num 123) respHappy item0 rfl rfl rfl (by decide)⟩

/-- evCalls distributes over trace concatenation. -/
theorem evCalls_append (a b : List Ev) : evCalls (a ++ b) = evCalls a ++ evCalls b := by
  simp [evCalls]

/-- A call list none of whose members is a field update has no field
update. -/
theorem any_isLeadUpdate_false (t : List Call)
    (h : ∀ c ∈ t, isLeadUpdate c = false) : t.any isLeadUpdate = false := by
  induction t with
  | nil => rfl
  | cons x xs ih =>
    simp only [List.any_cons, h x (by simp), Bool.false_or]
    exact ih (fun c hc => h c (by simp [hc]))

/-- C1 counterexample: when the metadata query reports errors, the
fetcher returns an absent result and the endpoint answers HTTP 500,
not a success-style status as the claim states. -/
theorem c1_counterexample :
    quietWorld.mondayRes = .ok ({ errors := true, items := [] }) ∧
    (getMondayItemData quietWorld cEnv (Prim.str "5")).1 = .ok none ∧
    (fetch quietWorld cEnv bodyBare).1.status = 500 ∧
    ¬ (fetch quietWorld cEnv bodyBare).1.status < 400 :=
  ⟨rfl, by decide, by decide, by decide⟩

/-- C1 amended: when the metadata query reports errors or returns no
item, the fetcher returns an absent result, the invocation halts after
that single outbound query, and the endpoint answers HTTP 500. -/
theorem c1_fetch_failure_500 (w : World) (env : Env) (body : Body) (p : Prim)
    (data : MondayResponse)
    (hch : (optPrim body.challenge).truthy = false)
    (hex : extractItemId env body = .inr p)
    (hp : p.truthy = true)
    (hres : w.mondayRes = .ok data)
    (hfail : data.errors = true ∨ data.items = []) :
    (getMondayItemData w env p).1 = .ok none ∧
    (fetch w env body).1 = { status := 500, rbody := .text "Failed to fetch item data" } ∧
    evCalls (fetch w env body).2 = [.monday p.toJsString] := by
  have hgm : getMondayItemData w env p = (.ok none, [.call (.monday p.toJsString)]) ∨
      getMondayItemData w env p =
        (.ok none, [.call (.monday p.toJsString), .err "Monday API errors"]) := by
    unfold getMondayItemData
    rw [hres]
    dsimp only
    by_cases he : data.errors = true
    · right
      simp [he]
    · left
      have hitems : data.items = [] := by
        rcases hfail with h | h
        · exact absurd h he
        · exact h
      simp [he, hitems]
  have hfetch : ∀ t0, getMondayItemData w env p = (.ok none, t0) →
      fetch w env body =
        ({ status := 500, rbody := .text "Failed to fetch item data" },
         t0 ++ [.err ("Failed to fetch item data for item " ++ p.toJsString)]) := by
    intro t0 hg
    unfold fetch
    rw [hch]
    dsimp only
    rw [hex]
    dsimp only
    rw [hp, hg]
    try rfl
  rcases hgm with h | h <;>
    exact ⟨by rw [h], by rw [hfetch _ h], by rw [hfetch _ h]; simp [evCalls_append, evCalls]⟩

/-- C1 witness: the bare body with item id 5 against the erroring
world produces the 500 response after exactly the metadata query. -/
theorem c1_witness :
    extractItemId cEnv bodyBare = .inr (Prim.str "5") ∧
    (getMondayItemData quietWorld cEnv (Prim.str "5")).1 = .ok none ∧
    (fetch quietWorld cEnv bodyBare).1 =
      { status := 500, rbody := .text "Failed to fetch item data" } ∧
    evCalls (fetch quietWorld cEnv bodyBare).2 = [.monday "5"] :=
  ⟨by decide,
   (c1_fetch_failure_500 quietWorld cEnv bodyBare (Prim.str "5")
      ({ errors := true, items := [] }) (by decide) (by decide) (by decide)
      rfl (Or.inl rfl)).1,
   (c1_fetch_failure_500 quietWorld cEnv bodyBare (Prim.str "5")
      ({ errors := true, items := [] }) (by decide) (by decide) (by decide)
      rfl (Or.inl rfl)).2.1,
   (c1_fetch_failure_500 quietWorld cEnv bodyBare (Prim.str "5")
      ({ errors := true, items := [] }) (by decide) (by decide) (by decide)
      rfl (Or.inl rfl)).2.2⟩

/-- C4: when the download and CRM upload of an asset succeed but the
mirror upload returns null, per-asset processing makes no custom-field
update call, yet it still makes the note-creation call carrying the
CRM-hosted download URL as the attachment. -/
theorem c4_mirror_fail_note_created (w : World) (env : Env) (itemId : Prim)
    (leadId nm : String) (a : Asset) (fd : Bytes) (cfu : String)
    (t1 t2 t3 : List Ev)
    (hdl : downloadMondayFile w a.public_url = (some fd, t1))
    (hup : uploadFileToClose w a.name (getMimeType a.name) fd = (.ok (some cfu), t2))
    (hr2 : uploadFileToR2 w env a.name (getMimeType a.name) fd itemId = (none, t3))
    (hn : w.note leadId ≠ .thrown) :
    (evCalls (processAsset w env itemId leadId nm a).2).any isLeadUpdate = false ∧
    Call.noteCreate leadId cfu a.name (getMimeType a.name) ∈
      evCalls (processAsset w env itemId leadId nm a).2 := by
  have hc1 : ∀ c ∈ evCalls t1, isLeadUpdate c = false := by
    intro c hc
    have ht : (downloadMondayFile w a.public_url).2 = t1 := by rw [hdl]
    rw [← ht] at hc
    obtain ⟨s, rfl⟩ := downloadMondayFile_calls w a.public_url c hc
    rfl
  have hc2 : ∀ c ∈ evCalls t2, isLeadUpdate c = false := by
    intro c hc
    have ht : (uploadFileToClose w a.name (getMimeType a.name) fd).2 = t2 := by rw [hup]
    rw [← ht] at hc
    rcases uploadFileToClose_calls w a.name (getMimeType a.name) fd c hc with
      ⟨x, y, rfl⟩ | ⟨s, rfl⟩ <;> rfl
  have hc3 : ∀ c ∈ evCalls t3, isLeadUpdate c = false := by
    intro c hc
    have ht : (uploadFileToR2 w env a.name (getMimeType a.name) fd itemId).2 = t3 := by
      rw [hr2]
    rw [← ht] at hc
    obtain ⟨k, x, y, rfl⟩ := uploadFileToR2_calls w env a.name (getMimeType a.name)
      fd itemId c hc
    rfl
  unfold processAsset
  rw [hdl]
  dsimp only
  rw [hup]
  dsimp only
  rw [hr2]
  dsimp only
  unfold createCloseNote
  rcases hw : w.note leadId with _ | b
  · exact absurd hw hn
  · cases b
    · refine ⟨?_, ?_⟩
      · simp only [evCalls_append, List.any_append]
        rw [any_isLeadUpdate_false _ hc1, any_isLeadUpdate_false _ hc2,
          any_isLeadUpdate_false _ hc3]
        rfl
      · simp [evCalls_append, evCalls]
    · refine ⟨?_, ?_⟩
      · simp only [evCalls_append, List.any_append]
        rw [any_isLeadUpdate_false _ hc1, any_isLeadUpdate_false _ hc2,
          any_isLeadUpdate_false _ hc3]
        rfl
      · simp [evCalls_append, evCalls]

/-- C4 witness: in the world where the R2 put throws, the fixture asset
is uploaded to Close and noted, with no field-update call. -/
theorem c4_witness :
    downloadMondayFile wR2Throw asset3.public_url =
      (some 7, [.call (.download "https://m/a3")]) ∧
    uploadFileToClose wR2Throw asset3.name (getMimeType asset3.name) 7 =
      (.ok (some "https://close/dl"),
       [.call (.closeInit "a b.pdf" "application/pdf"), .call (.s3 "https://s3/u")]) ∧
    uploadFileToR2 wR2Throw cEnv asset3.name (getMimeType asset3.name) 7 (.num 123) =
      (none, [.call (.r2Put "123/a b.pdf" "application/pdf" 7), .err "R2 upload error"]) ∧
    (evCalls (processAsset wR2Throw cEnv (.num 123) "lead_9" "Lead Name" asset3).2).any
      isLeadUpdate = false ∧
    Call.noteCreate "lead_9" "https://close/dl" asset3.name (getMimeType asset3.name) ∈
      evCalls (processAsset wR2Throw cEnv (.num 123) "lead_9" "Lead Name" asset3).2 :=
  ⟨by decide, by decide, by decide,
   (c4_mirror_fail_note_created wR2Throw cEnv (.num 123) "lead_9" "Lead Name" asset3
      7 "https://close/dl" [.call (.download "https://m/a3")]
      [.call (.closeInit "a b.pdf" "application/pdf"), .call (.s3 "https://s3/u")]
      [.call (.r2Put "123/a b.pdf" "application/pdf" 7), .err "R2 upload error"]
      (by decide) (by decide) (by decide) (by decide)).1,
   (c4_mirror_fail_note_created wR2Throw cEnv (.num 123) "lead_9" "Lead Name" asset3
      7 "https://close/dl" [.call (.download "https://m/a3")]
      [.call (.closeInit "a b.pdf" "application/pdf"), .call (.s3 "https://s3/u")]
      [.call (.r2Put "123/a b.pdf" "application/pdf" 7), .err "R2 upload error"]
      (by decide) (by decide) (by decide) (by decide)).2⟩

/-- A failed download is logged individually in the per-asset trace. -/
theorem processAsset_dl_err (w : World) (env : Env) (itemId : Prim)
    (leadId nm : String) (a : Asset)
    (h : (downloadMondayFile w a.public_url).1 = none) :
    Ev.err ("Failed to download file " ++ a.name ++ " from Monday") ∈
      (processAsset w env itemId leadId nm a).2 := by
  unfold processAsset
  rcases hdl : downloadMondayFile w a.public_url with ⟨fdr, t1⟩
  have hf : fdr = none := by
    rw [hdl] at h
    exact h
  subst hf
  simp

/-- C2 counterexample: with assets under iteration (the download call
was made), a rejected Close init fetch escapes the loop and turns the
invocation into HTTP 500, contradicting the claim. -/
theorem c2_counterexample :
    Call.download "https://m/a3" ∈ evCalls (fetch wCloseInitThrow cEnv bodyEv).2 ∧
    (fetch wCloseInitThrow cEnv bodyEv).1 =
      { status := 500, rbody := .text "Internal error" } :=
  ⟨by decide, by decide⟩

/-- C2 amended: every per-asset step failure that the source converts
into a result (failed download, CRM upload failing by status or missing
fields, mirror upload throwing, field update failing, note creation
failing by status) leaves the invocation ending in 200 OK, and a failed
download is logged individually; only a rejected fetch inside the CRM
upload or the note creation, which the source does not catch locally,
can abort the invocation with HTTP 500. -/
theorem c2_result_failures_continue (w : World) (env : Env) (body : Body) (p : Prim)
    (d : ItemData) (leadId : String) (a : Asset)
    (hch : (optPrim body.challenge).truthy = false)
    (hex : extractItemId env body = .inr p)
    (hp : p.truthy = true)
    (hgm : (getMondayItemData w env p).1 = .ok (some d))
    (hlead : d.closeLeadId = some leadId)
    (hassets : d.assets = [a])
    (hci : ∀ s, w.closeInit s ≠ .thrown)
    (hs3 : ∀ s, w.s3 s ≠ .thrown)
    (hn : ∀ s, w.note s ≠ .thrown) :
    (fetch w env body).1 = { status := 200, rbody := .text "OK" } ∧
    ((downloadMondayFile w a.public_url).1 = none →
      Ev.err ("Failed to download file " ++ a.name ++ " from Monday") ∈
        (fetch w env body).2) := by
  rcases hg : getMondayItemData w env p with ⟨res, t⟩
  have hres : res = .ok (some d) := by
    rw [hg] at hgm
    exact hgm
  subst hres
  rcases hpa : processAsset w env p leadId d.name a with ⟨r, pt⟩
  have hr : r ≠ .thrown := by
    have := processAsset_not_thrown w env p leadId d.name a hci hs3 hn
    rw [hpa] at this
    exact this
  rcases r with _ | u
  · exact absurd rfl hr
  cases u
  have hps : processAssets w env p leadId d.name [a] = (.ok (), pt ++ []) := by
    unfold processAssets
    rw [hpa]
    rfl
  have hfetch : fetch w env body =
      ({ status := 200, rbody := .text "OK" }, t ++ (pt ++ [])) := by
    unfold fetch
    rw [hch]
    dsimp only
    rw [hex]
    dsimp only
    rw [hp, hg]
    dsimp only
    rw [hlead]
    dsimp only
    rw [hassets, hps]
    rfl
  refine ⟨by rw [hfetch], ?_⟩
  intro hdl
  have hmem := processAsset_dl_err w env p leadId d.name a hdl
  rw [hpa] at hmem
  rw [hfetch]
  simp only [List.append_nil, List.mem_append]
  exact Or.inr hmem

/-- C2 witness: with every download failing by status and all other
calls healthy, the invocation still ends 200 OK and the download
failure is logged. -/
theorem c2_witness :
    (fetch wDownloadFail cEnv bodyEv).1 = { status := 200, rbody := .text "OK" } ∧
    Ev.err "Failed to download file a b.pdf from Monday" ∈
      (fetch wDownloadFail cEnv bodyEv).2 :=
  ⟨(c2_result_failures_continue wDownloadFail cEnv bodyEv (.num 123)
      ({ name := "Lead Name", closeLeadId := some "lead_9", assets := [asset3] })
      "lead_9" asset3 (by decide) (by decide) (by decide) (by decide) rfl rfl
      (fun s h => nomatch h) (fun s h => nomatch h) (fun s h => nomatch h)).1,
   (c2_result_failures_continue wDownloadFail cEnv bodyEv (.num 123)
      ({ name := "Lead Name", closeLeadId := some "lead_9", assets := [asset3] })
      "lead_9" asset3 (by decide) (by decide) (by decide) (by decide) rfl rfl
      (fun s h => nomatch h) (fun s h => nomatch h) (fun s h => nomatch h)).2
     (by decide)⟩

/-- C10: whenever the extracted item identifier is falsy, the handler
answers 200 with the no-item-id body, logs the extraction failure, and
makes zero outbound calls, exactly as for a missing identifier. -/
theorem c10_falsy_id_like_missing (w : World) (env : Env) (body : Body) (p : Prim)
    (hch : (optPrim body.challenge).truthy = false)
    (hex : extractItemId env body = .inr p)
    (hfalsy : p.truthy = false) :
    fetch w env body =
      ({ status := 200, rbody := .text "No item ID found in payload" },
       [.err "Could not extract item ID from payload"]) ∧
    evCalls (fetch w env body).2 = [] := by
  have h : fetch w env body =
      ({ status := 200, rbody := .text "No item ID found in payload" },
       [.err "Could not extract item ID from payload"]) := by
    unfold fetch
    rw [hch]
    dsimp only
    rw [hex]
    dsimp only
    rw [hfalsy]
    rfl
  exact ⟨h, by rw [h]; rfl⟩

/-- C10 witness: a bare body whose pulseId is numeric zero extracts the
falsy identifier zero and is answered like a missing identifier. -/
theorem c10_witness :
    extractItemId cEnv bodyZeroId = .inr (Prim.num 0) ∧
    fetch wHappy cEnv bodyZeroId =
      ({ status := 200, rbody := .text "No item ID found in payload" },
       [.err "Could not extract item ID from payload"]) ∧
    evCalls (fetch wHappy cEnv bodyZeroId).2 = [] :=
  ⟨by decide,
   (c10_falsy_id_like_missing wHappy cEnv bodyZeroId (Prim.num 0)
      (by decide) (by decide) (by decide)).1,
   (c10_falsy_id_like_missing wHappy cEnv bodyZeroId (Prim.num 0)
      (by decide) (by decide) (by decide)).2⟩

end NafaAuditSync
